import Mathlib

/-!
Verification of the shading-and-production simulation engine of the
site-survey analysis repository, together with the surveyor-mode input
mappings of the frontend.

The engine implementation itself (the advanced shading service) is not part
of the checked-in sources; the repository carries its technical
documentation (shadow projection, clear-sky irradiance, panel efficiency,
temporal sampling, energy-loss aggregation) and the frontend code that
consumes its results.  The engine definitions below are therefore modelled
from the specification, faithful to its formulas; the frontend mapping
functions are translated directly from the TypeScript/JavaScript sources.

Geometric regions (roof-plane and obstruction footprints, shadow polygons)
are modelled as subsets of the plane, and polygon area as Lebesgue measure,
matching the specification's description of polygon intersection areas.
-/

namespace SiteSurvey

open MeasureTheory Set

/-- Conversion from degrees to radians, used by every trigonometric step of
the engine (all engine angles are specified in degrees). -/
noncomputable def rad (d : ℝ) : ℝ := d * Real.pi / 180

/-- Reduction of an angle in degrees to the half-open range 0 to 360, the
real-number analogue of the mod-360 step of the shadow-direction formula. -/
noncomputable def degMod360 (x : ℝ) : ℝ := x - 360 * ⌊x / 360⌋

/-- Area of a planar region, as a real number (Lebesgue measure of the
region).  Modelled from the spec: the engine computes polygon areas with a
geometry library; the mathematical meaning of those areas is planar
measure. -/
noncomputable def area (s : Set (ℝ × ℝ)) : ℝ := (volume s).toReal

/-- An obstruction: a footprint polygon (as a planar region) and a height
above the roof-plane datum, in meters. -/
structure Obstruction where
  footprint : Set (ℝ × ℝ)
  height : ℝ

/-- Modelled from the spec: shadow length equals obstruction height divided
by the tangent of the solar elevation (elevation given in degrees,
converted to radians for the tangent). -/
noncomputable def shadowLength (h e : ℝ) : ℝ := h / Real.tan (rad e)

/-- Modelled from the spec: shadow direction is the sun azimuth plus 180
degrees, reduced mod 360 (the shadow points away from the sun). -/
noncomputable def shadowDirection (az : ℝ) : ℝ := degMod360 (az + 180)

/-- Modelled from the spec: the translation vector applied to the
obstruction footprint, with components length times sine of the shadow
direction and length times cosine of the shadow direction. -/
noncomputable def shadowOffset (h az e : ℝ) : ℝ × ℝ :=
  (shadowLength h e * Real.sin (rad (shadowDirection az)),
   shadowLength h e * Real.cos (rad (shadowDirection az)))

/-- Translation of a planar region by a vector: every point of the region
is moved by the vector (the engine translates every vertex of the
obstruction footprint). -/
def translate (v : ℝ × ℝ) (s : Set (ℝ × ℝ)) : Set (ℝ × ℝ) :=
  (fun p => (p.1 + v.1, p.2 + v.2)) '' s

/-- Modelled from the spec: the shadow polygon of an obstruction is its
footprint translated by the shadow offset. -/
noncomputable def shadowRegion (ob : Obstruction) (az e : ℝ) : Set (ℝ × ℝ) :=
  translate (shadowOffset ob.height az e) ob.footprint

/-- Modelled from the spec: elevations at or below this small threshold (2
degrees) are treated as night by the shadow projector, to avoid degenerate
near-horizon shadow lengths. -/
def clampEpsilon : ℝ := 2

/-- Modelled from the spec: shaded fraction of a roof plane by a single
obstruction.  At or below the near-horizon clamp (hence for every
elevation at or below zero) it returns 1; otherwise it is the area of the
intersection of the shadow polygon with the roof polygon, divided by the
roof-plane area. -/
noncomputable def shadedFraction (roof : Set (ℝ × ℝ)) (ob : Obstruction) (az e : ℝ) : ℝ :=
  if e ≤ clampEpsilon then 1
  else area (shadowRegion ob az e ∩ roof) / area roof

/-- Modelled from the spec: shaded fraction of a roof plane by a list of
obstructions.  Each obstruction is projected independently and the union of
the per-obstruction shadow-roof intersections (not their sum) is divided by
the roof-plane area. -/
noncomputable def multiShadedFraction (roof : Set (ℝ × ℝ)) (obs : List Obstruction)
    (az e : ℝ) : ℝ :=
  if e ≤ clampEpsilon then 1
  else area (⋃ ob ∈ obs, shadowRegion ob az e ∩ roof) / area roof

/-- Solar constant at the top of the atmosphere, in watts per square
meter. -/
def solarConstant : ℝ := 1367

/-- Modelled from the spec: relative air mass by the Kasten-Young
approximation, with the elevation in degrees. -/
noncomputable def airMass (e : ℝ) : ℝ :=
  1 / (Real.sin (rad e) + 0.50572 * (e + 6.07995) ^ (-1.6364 : ℝ))

/-- Modelled from the spec: clear-sky direct irradiance at ground level.
Zero at or below the horizon; otherwise the solar constant attenuated by
0.7 raised to the air mass raised to 0.678, with no additional
multiplicative factor. -/
noncomputable def clearSkyIrradiance (e : ℝ) : ℝ :=
  if e ≤ 0 then 0 else solarConstant * (0.7 : ℝ) ^ (airMass e ^ (0.678 : ℝ))

/-- Clamp of a real number to the unit interval. -/
noncomputable def clamp01 (x : ℝ) : ℝ := max 0 (min 1 x)

/-- Modelled from the spec: cosine of the angle of incidence between the
sun direction and the panel normal, from sun elevation, panel tilt and the
azimuth difference (all in degrees). -/
noncomputable def cosAOI (sunAz sunEl tilt panelAz : ℝ) : ℝ :=
  Real.sin (rad sunEl) * Real.cos (rad tilt) +
    Real.cos (rad sunEl) * Real.sin (rad tilt) * Real.cos (rad (sunAz - panelAz))

/-- Modelled from the spec: panel efficiency is the angle-of-incidence
factor clamped to the unit interval times the temperature-derating factor
1 - 0.004 (t - 25), also clamped to the unit interval. -/
noncomputable def panelEfficiency (sunAz sunEl tilt panelAz tempC : ℝ) : ℝ :=
  clamp01 (cosAOI sunAz sunEl tilt panelAz) * clamp01 (1 - 0.004 * (tempC - 25))

/-- A sampled instant of the temporal grid: calendar month (1 to 12), day
of month, and local hour. -/
structure Instant where
  month : ℕ
  day : ℕ
  hour : ℕ
deriving DecidableEq

/-- Modelled from the spec: the fixed sampling grid of 12 representative
days (the 15th of each month) crossed with the 13 local hours 06:00 through
18:00 inclusive, 156 instants in all. -/
def sampleGrid : List Instant :=
  (List.range 12).flatMap fun m => (List.range 13).map fun h => ⟨m + 1, 15, h + 6⟩

/-- Modelled from the spec: the subset of the sampling grid whose local
hour lies in the peak window 10:00 to 16:00 inclusive. -/
def peakGrid : List Instant :=
  sampleGrid.filter fun i => decide (10 ≤ i.hour ∧ i.hour ≤ 16)

/-- Modelled from the spec: one accumulation step of the temporal
aggregator.  An instant whose solar elevation is at or below zero
contributes nothing; otherwise irradiance times efficiency is added to the
potential sum and irradiance times efficiency times one minus the shaded
fraction is added to the actual sum. -/
noncomputable def accumStep (elev az : Instant → ℝ) (roof : Set (ℝ × ℝ))
    (obs : List Obstruction) (tilt panelAz tempC : ℝ)
    (acc : ℝ × ℝ) (i : Instant) : ℝ × ℝ :=
  if elev i ≤ 0 then acc
  else
    (acc.1 + clearSkyIrradiance (elev i) * panelEfficiency (az i) (elev i) tilt panelAz tempC,
     acc.2 + clearSkyIrradiance (elev i) * panelEfficiency (az i) (elev i) tilt panelAz tempC *
       (1 - multiShadedFraction roof obs (az i) (elev i)))

/-- Modelled from the spec: the pair (potential sum, actual sum) obtained
by folding the accumulation step over a list of instants, starting from
zero. -/
noncomputable def runSums (elev az : Instant → ℝ) (roof : Set (ℝ × ℝ))
    (obs : List Obstruction) (tilt panelAz tempC : ℝ) (grid : List Instant) : ℝ × ℝ :=
  grid.foldl (accumStep elev az roof obs tilt panelAz tempC) (0, 0)

/-- Modelled from the spec: loss percentage from a (potential, actual) pair
of sums; defined as 0 when the potential sum is 0, otherwise
100 (1 - actual / potential). -/
noncomputable def lossPercent (s : ℝ × ℝ) : ℝ :=
  if s.1 = 0 then 0 else 100 * (1 - s.2 / s.1)

/-- Modelled from the spec: annual energy-loss percentage of a plane, from
the full 156-instant sampling grid. -/
noncomputable def annualLossPercent (elev az : Instant → ℝ) (roof : Set (ℝ × ℝ))
    (obs : List Obstruction) (tilt panelAz tempC : ℝ) : ℝ :=
  lossPercent (runSums elev az roof obs tilt panelAz tempC sampleGrid)

/-- Modelled from the spec: peak-hours loss percentage of a plane, from the
peak-hour subset of the sampling grid. -/
noncomputable def peakLossPercent (elev az : Instant → ℝ) (roof : Set (ℝ × ℝ))
    (obs : List Obstruction) (tilt panelAz tempC : ℝ) : ℝ :=
  lossPercent (runSums elev az roof obs tilt panelAz tempC peakGrid)

/-- Per-plane analysis result fields needed by the claims: the two loss
percentages and the optional explanatory note. -/
structure PlaneAnalysisResult where
  annual_energy_loss_percent : ℝ
  peak_hours_loss_percent : ℝ
  note : Option String

/-- Explanatory note attached to a plane whose potential sum is zero. -/
def emptyResultNote : String :=
  "all 156 samples were night or produced zero potential irradiance"

/-- Modelled from the spec: the finalize step.  It always produces a
result; when the potential sum is 0 the loss is reported as 0 and an
explanatory note is attached instead of an error being thrown. -/
noncomputable def finalizePlane (sums peakSums : ℝ × ℝ) : PlaneAnalysisResult :=
  { annual_energy_loss_percent := lossPercent sums
    peak_hours_loss_percent := lossPercent peakSums
    note := if sums.1 = 0 then some emptyResultNote else none }

/-- Recommendation message for annual loss below 5 percent. -/
def lowImpactMessage : String :=
  "Low impact: excellent site with minimal shading, proceed with confidence"

/-- Recommendation message for annual loss between 5 and 15 percent. -/
def moderateImpactMessage : String :=
  "Moderate impact: manageable shading, consider minor obstruction trimming"

/-- Recommendation message for annual loss between 15 and 30 percent. -/
def significantImpactMessage : String :=
  "Significant impact: obstruction mitigation recommended, consider alternative panel placement"

/-- Recommendation message for annual loss above 30 percent. -/
def severeImpactMessage : String :=
  "Severe impact: site may not be viable, major obstructions require removal"

/-- Modelled from the spec: the recommendation string of a plane result is
a pure function of the annual loss percentage, chosen by thresholds at 5,
15 and 30 percent; no other input reaches this choice. -/
noncomputable def recommendation (loss : ℝ) : String :=
  if loss < 5 then lowImpactMessage
  else if loss ≤ 15 then moderateImpactMessage
  else if loss ≤ 30 then significantImpactMessage
  else severeImpactMessage

/-- The direction-name table of the surveyor-mode editor, translated from
the object literal of directionToAzimuth in SurveyorMapEditor.tsx (and the
identical copy in the surveyor-mode test script). -/
def directionAzimuthTable (d : String) : Option ℕ :=
  if d = "north" then some 0
  else if d = "east" then some 90
  else if d = "south" then some 180
  else if d = "west" then some 270
  else if d = "northeast" then some 45
  else if d = "southeast" then some 135
  else if d = "southwest" then some 225
  else if d = "northwest" then some 315
  else none

/-- JavaScript or-default on the table lookup: both a missing entry and the
number 0 are falsy, so both fall through to the default. -/
def orDefault (v : Option ℕ) (dft : ℕ) : ℕ :=
  match v with
  | some x => if x = 0 then dft else x
  | none => dft

/-- The surveyor-mode direction-to-azimuth mapping, translated from
SurveyorMapEditor.tsx: table lookup with JavaScript or-default 180. -/
def directionToAzimuth (d : String) : ℕ :=
  orDefault (directionAzimuthTable d) 180

/-! Helper lemmas: elementary bounds for the engine components. -/

lemma clamp01_nonneg (x : ℝ) : 0 ≤ clamp01 x := le_max_left 0 _

lemma clamp01_le_one (x : ℝ) : clamp01 x ≤ 1 :=
  max_le (by norm_num) (min_le_left 1 x)

lemma clearSkyIrradiance_nonneg (e : ℝ) : 0 ≤ clearSkyIrradiance e := by
  unfold clearSkyIrradiance
  split
  · exact le_refl 0
  · exact mul_nonneg (by norm_num [solarConstant]) (Real.rpow_nonneg (by norm_num) _)

lemma panelEfficiency_nonneg (sunAz sunEl tilt panelAz tempC : ℝ) :
    0 ≤ panelEfficiency sunAz sunEl tilt panelAz tempC :=
  mul_nonneg (clamp01_nonneg _) (clamp01_nonneg _)

lemma panelEfficiency_le_one (sunAz sunEl tilt panelAz tempC : ℝ) :
    panelEfficiency sunAz sunEl tilt panelAz tempC ≤ 1 :=
  mul_le_one₀ (clamp01_le_one _) (clamp01_nonneg _) (clamp01_le_one _)

lemma area_nonneg (s : Set (ℝ × ℝ)) : 0 ≤ area s := ENNReal.toReal_nonneg

lemma area_mono {s t : Set (ℝ × ℝ)} (hst : s ⊆ t) (ht : volume t ≠ ⊤) :
    area s ≤ area t :=
  ENNReal.toReal_mono ht (measure_mono hst)

lemma multiShadedFraction_nonneg (roof : Set (ℝ × ℝ)) (obs : List Obstruction) (az e : ℝ) :
    0 ≤ multiShadedFraction roof obs az e := by
  unfold multiShadedFraction
  split
  · norm_num
  · exact div_nonneg (area_nonneg _) (area_nonneg _)

lemma multiShadedFraction_le_one (roof : Set (ℝ × ℝ)) (obs : List Obstruction) (az e : ℝ)
    (hfin : volume roof ≠ ⊤) :
    multiShadedFraction roof obs az e ≤ 1 := by
  unfold multiShadedFraction
  split
  · exact le_refl 1
  · have hsub : (⋃ ob ∈ obs, shadowRegion ob az e ∩ roof) ⊆ roof :=
      iUnion₂_subset fun ob _ => inter_subset_right
    have hle : area (⋃ ob ∈ obs, shadowRegion ob az e ∩ roof) ≤ area roof :=
      area_mono hsub hfin
    rcases eq_or_lt_of_le (area_nonneg roof) with h0 | h0
    · rw [← h0, div_zero]
      norm_num
    · exact (div_le_one h0).mpr hle

lemma lossPercent_nonneg {s : ℝ × ℝ} (h2 : 0 ≤ s.2) (h21 : s.2 ≤ s.1) :
    0 ≤ lossPercent s := by
  unfold lossPercent
  split
  · exact le_refl 0
  · rename_i hne
    have hp : 0 < s.1 := lt_of_le_of_ne (le_trans h2 h21) (Ne.symm hne)
    have : s.2 / s.1 ≤ 1 := (div_le_one hp).mpr h21
    linarith

lemma lossPercent_le_100 {s : ℝ × ℝ} (h2 : 0 ≤ s.2) (h21 : s.2 ≤ s.1) :
    lossPercent s ≤ 100 := by
  unfold lossPercent
  split
  · norm_num
  · rename_i hne
    have hp : 0 < s.1 := lt_of_le_of_ne (le_trans h2 h21) (Ne.symm hne)
    have : 0 ≤ s.2 / s.1 := div_nonneg h2 hp.le
    linarith

/-! Helper lemmas: concrete rectangle geometry, used to instantiate the
claim theorems on explicit inputs. -/

lemma translate_Icc_prod (v1 v2 a b c d : ℝ) :
    translate (v1, v2) (Icc a b ×ˢ Icc c d) = Icc (a + v1) (b + v1) ×ˢ Icc (c + v2) (d + v2) := by
  ext ⟨x, y⟩
  simp only [translate, Set.mem_image, Set.mem_prod, Set.mem_Icc, Prod.mk.injEq, Prod.exists]
  constructor
  · rintro ⟨px, py, ⟨⟨h1, h2⟩, h3, h4⟩, hx, hy⟩
    exact ⟨⟨by linarith, by linarith⟩, by linarith, by linarith⟩
  · rintro ⟨⟨hx1, hx2⟩, hy1, hy2⟩
    exact ⟨x - v1, y - v2, ⟨⟨by linarith, by linarith⟩, by linarith, by linarith⟩,
      by ring, by ring⟩

lemma volume_Icc_prod (a b c d : ℝ) :
    volume (Icc a b ×ˢ Icc c d) = ENNReal.ofReal (b - a) * ENNReal.ofReal (d - c) := by
  rw [Measure.volume_eq_prod, Measure.prod_prod, Real.volume_Icc, Real.volume_Icc]

lemma area_Icc_prod (a b c d : ℝ) (hab : a ≤ b) (hcd : c ≤ d) :
    area (Icc a b ×ˢ Icc c d) = (b - a) * (d - c) := by
  rw [area, volume_Icc_prod, ENNReal.toReal_mul,
    ENNReal.toReal_ofReal (by linarith), ENNReal.toReal_ofReal (by linarith)]

lemma volume_Icc_prod_ne_top (a b c d : ℝ) : volume (Icc a b ×ˢ Icc c d) ≠ ⊤ := by
  rw [volume_Icc_prod]
  exact ENNReal.mul_ne_top ENNReal.ofReal_ne_top ENNReal.ofReal_ne_top

lemma volume_unitSquare : volume (Icc (0:ℝ) 1 ×ˢ Icc (0:ℝ) 1) = 1 := by
  rw [volume_Icc_prod]
  norm_num

/-! Helper lemmas: trigonometric evaluations at the concrete sun positions
used by the witnesses and the counterexample. -/

lemma degMod360_360 : degMod360 360 = 0 := by
  unfold degMod360
  norm_num

lemma shadowDirection_south : shadowDirection 180 = 0 := by
  unfold shadowDirection
  norm_num [degMod360_360]

lemma rad_zero : rad 0 = 0 := by
  unfold rad
  ring

lemma rad_45 : rad 45 = Real.pi / 4 := by
  unfold rad
  ring

lemma shadowLength_45 (h : ℝ) : shadowLength h 45 = h := by
  unfold shadowLength
  rw [rad_45, Real.tan_pi_div_four, div_one]

lemma shadowOffset_south (h e : ℝ) : shadowOffset h 180 e = (0, shadowLength h e) := by
  unfold shadowOffset
  rw [shadowDirection_south, rad_zero, Real.sin_zero, Real.cos_zero, mul_zero, mul_one]

/-! Helper lemmas: invariant of the aggregation fold, used for the loss
bounds. -/

lemma accumStep_invariant (elev az : Instant → ℝ) (roof : Set (ℝ × ℝ))
    (obs : List Obstruction) (tilt panelAz tempC : ℝ) (hfin : volume roof ≠ ⊤)
    (acc : ℝ × ℝ) (i : Instant) (h2 : 0 ≤ acc.2) (h21 : acc.2 ≤ acc.1) :
    0 ≤ (accumStep elev az roof obs tilt panelAz tempC acc i).2 ∧
      (accumStep elev az roof obs tilt panelAz tempC acc i).2 ≤
        (accumStep elev az roof obs tilt panelAz tempC acc i).1 := by
  unfold accumStep
  split
  · exact ⟨h2, h21⟩
  · have hirr : 0 ≤ clearSkyIrradiance (elev i) := clearSkyIrradiance_nonneg _
    have heff0 : 0 ≤ panelEfficiency (az i) (elev i) tilt panelAz tempC :=
      panelEfficiency_nonneg _ _ _ _ _
    have hq : 0 ≤ clearSkyIrradiance (elev i) * panelEfficiency (az i) (elev i) tilt panelAz tempC :=
      mul_nonneg hirr heff0
    have hsf0 : 0 ≤ multiShadedFraction roof obs (az i) (elev i) :=
      multiShadedFraction_nonneg _ _ _ _
    have hsf1 : multiShadedFraction roof obs (az i) (elev i) ≤ 1 :=
      multiShadedFraction_le_one _ _ _ _ hfin
    constructor
    · have : 0 ≤ (1 - multiShadedFraction roof obs (az i) (elev i)) := by linarith
      have := mul_nonneg hq this
      simp only []
      linarith
    · have hle : clearSkyIrradiance (elev i) * panelEfficiency (az i) (elev i) tilt panelAz tempC *
          (1 - multiShadedFraction roof obs (az i) (elev i)) ≤
          clearSkyIrradiance (elev i) * panelEfficiency (az i) (elev i) tilt panelAz tempC := by
        nlinarith
      simp only []
      linarith

lemma foldl_accumStep_invariant (elev az : Instant → ℝ) (roof : Set (ℝ × ℝ))
    (obs : List Obstruction) (tilt panelAz tempC : ℝ) (hfin : volume roof ≠ ⊤) :
    ∀ (grid : List Instant) (acc : ℝ × ℝ), 0 ≤ acc.2 → acc.2 ≤ acc.1 →
      0 ≤ (grid.foldl (accumStep elev az roof obs tilt panelAz tempC) acc).2 ∧
        (grid.foldl (accumStep elev az roof obs tilt panelAz tempC) acc).2 ≤
          (grid.foldl (accumStep elev az roof obs tilt panelAz tempC) acc).1 := by
  intro grid
  induction grid with
  | nil => intro acc h2 h21; exact ⟨h2, h21⟩
  | cons i t ih =>
    intro acc h2 h21
    have hstep := accumStep_invariant elev az roof obs tilt panelAz tempC hfin acc i h2 h21
    simpa using ih (accumStep elev az roof obs tilt panelAz tempC acc i) hstep.1 hstep.2

lemma runSums_invariant (elev az : Instant → ℝ) (roof : Set (ℝ × ℝ))
    (obs : List Obstruction) (tilt panelAz tempC : ℝ) (grid : List Instant)
    (hfin : volume roof ≠ ⊤) :
    0 ≤ (runSums elev az roof obs tilt panelAz tempC grid).2 ∧
      (runSums elev az roof obs tilt panelAz tempC grid).2 ≤
        (runSums elev az roof obs tilt panelAz tempC grid).1 := by
  unfold runSums
  exact foldl_accumStep_invariant elev az roof obs tilt panelAz tempC hfin grid (0, 0)
    (le_refl 0) (le_refl 0)

/-! Claim theorems. -/

/-- C3: for every solar elevation at or below 0, the clear-sky irradiance
function returns exactly 0; for every positive elevation it returns
I0 k raised to (AM raised to p) with I0 = 1367, k = 0.7, p = 0.678, where
AM is the Kasten-Young air mass 1 / (sin e + 0.50572 (e + 6.07995) raised
to -1.6364) with e in degrees, and no additional multiplicative factor is
applied. -/
theorem clearSkyIrradiance_spec (e : ℝ) :
    (e ≤ 0 → clearSkyIrradiance e = 0) ∧
    (0 < e → clearSkyIrradiance e =
      1367 * (0.7 : ℝ) ^
        ((1 / (Real.sin (e * Real.pi / 180) +
          0.50572 * (e + 6.07995) ^ (-1.6364 : ℝ))) ^ (0.678 : ℝ))) := by
  constructor
  · intro h
    unfold clearSkyIrradiance
    rw [if_pos h]
  · intro h
    unfold clearSkyIrradiance
    rw [if_neg (not_le.mpr h)]
    unfold solarConstant airMass rad
    rfl

/-- Witness for C3: the irradiance function evaluated on a night elevation
and on a daytime elevation, with the hypotheses discharged concretely. -/
theorem clearSkyIrradiance_spec_witness :
    ((-1 : ℝ) ≤ 0 ∧ clearSkyIrradiance (-1) = 0) ∧
    ((0 : ℝ) < 45 ∧ clearSkyIrradiance 45 =
      1367 * (0.7 : ℝ) ^
        ((1 / (Real.sin ((45 : ℝ) * Real.pi / 180) +
          0.50572 * ((45 : ℝ) + 6.07995) ^ (-1.6364 : ℝ))) ^ (0.678 : ℝ))) :=
  ⟨⟨by norm_num, (clearSkyIrradiance_spec (-1)).1 (by norm_num)⟩,
   ⟨by norm_num, (clearSkyIrradiance_spec 45).2 (by norm_num)⟩⟩

/-- C4: the panel efficiency function returns clamp01 of the
angle-of-incidence cosine times clamp01 of the temperature derating
1 - 0.004 (t - 25), where the cosine is
sin e cos tilt + cos e sin tilt cos (sun azimuth - panel azimuth); both
factors are clamped to the unit interval, so the returned efficiency
always lies between 0 and 1. -/
theorem panelEfficiency_spec (sunAz sunEl tilt panelAz tempC : ℝ) :
    panelEfficiency sunAz sunEl tilt panelAz tempC =
      clamp01 (Real.sin (rad sunEl) * Real.cos (rad tilt) +
        Real.cos (rad sunEl) * Real.sin (rad tilt) * Real.cos (rad (sunAz - panelAz))) *
        clamp01 (1 - 0.004 * (tempC - 25)) ∧
    0 ≤ panelEfficiency sunAz sunEl tilt panelAz tempC ∧
    panelEfficiency sunAz sunEl tilt panelAz tempC ≤ 1 :=
  ⟨rfl, panelEfficiency_nonneg _ _ _ _ _, panelEfficiency_le_one _ _ _ _ _⟩

/-- C6: the finalize step computes the annual loss as
100 (1 - actual / potential), and when the potential sum is 0 the plane
result is still produced, with loss 0 and an explanatory note, no thrown
error (the finalize function is total). -/
theorem finalizePlane_spec (p a : ℝ) (pk : ℝ × ℝ) :
    (finalizePlane (p, a) pk).annual_energy_loss_percent =
      (if p = 0 then 0 else 100 * (1 - a / p)) ∧
    (p = 0 → (finalizePlane (p, a) pk).annual_energy_loss_percent = 0 ∧
      (finalizePlane (p, a) pk).note = some emptyResultNote) := by
  constructor
  · rfl
  · intro h
    subst h
    simp [finalizePlane, lossPercent]

/-- Witness for C6: the finalize step evaluated on a plane whose potential
sum is zero. -/
theorem finalizePlane_spec_witness :
    (0 : ℝ) = 0 ∧ (finalizePlane ((0 : ℝ), (0 : ℝ)) (0, 0)).annual_energy_loss_percent = 0 ∧
      (finalizePlane ((0 : ℝ), (0 : ℝ)) (0, 0)).note = some emptyResultNote :=
  ⟨rfl, (finalizePlane_spec 0 0 (0, 0)).2 rfl⟩

/-- C9: the recommendation string of a plane result is chosen only by
thresholding the annual loss percentage: below 5 the low-impact message,
in 5 to 15 the moderate message, in 15 to 30 the significant message, and
above 30 the severe message (the recommendation function takes no input
other than the loss percentage). -/
theorem recommendation_spec (loss : ℝ) :
    (loss < 5 → recommendation loss = lowImpactMessage) ∧
    (5 ≤ loss → loss ≤ 15 → recommendation loss = moderateImpactMessage) ∧
    (15 < loss → loss ≤ 30 → recommendation loss = significantImpactMessage) ∧
    (30 < loss → recommendation loss = severeImpactMessage) := by
  unfold recommendation
  refine ⟨?_, ?_, ?_, ?_⟩ <;> intros <;> split_ifs <;> first | rfl | linarith

/-- Witness for C9: one representative loss value in each of the four
threshold bands. -/
theorem recommendation_spec_witness :
    ((3 : ℝ) < 5 ∧ recommendation 3 = lowImpactMessage) ∧
    ((5 : ℝ) ≤ 10 ∧ (10 : ℝ) ≤ 15 ∧ recommendation 10 = moderateImpactMessage) ∧
    ((15 : ℝ) < 20 ∧ (20 : ℝ) ≤ 30 ∧ recommendation 20 = significantImpactMessage) ∧
    ((30 : ℝ) < 40 ∧ recommendation 40 = severeImpactMessage) :=
  ⟨⟨by norm_num, (recommendation_spec 3).1 (by norm_num)⟩,
   ⟨by norm_num, by norm_num, (recommendation_spec 10).2.1 (by norm_num) (by norm_num)⟩,
   ⟨by norm_num, by norm_num, (recommendation_spec 20).2.2.1 (by norm_num) (by norm_num)⟩,
   ⟨by norm_num, (recommendation_spec 40).2.2.2 (by norm_num)⟩⟩

/-- C10: the surveyor-mode mapping directionToAzimuth always returns a
value in the set 45, 90, 135, 180, 225, 270, 315 and never returns 0: the
table entry for north is 0, which is falsy under the JavaScript or-default,
so north, like every unrecognized direction, yields the default 180
(south). -/
theorem directionToAzimuth_spec :
    (∀ d : String, directionToAzimuth d ∈ ([45, 90, 135, 180, 225, 270, 315] : List ℕ)) ∧
    (∀ d : String, directionToAzimuth d ≠ 0) ∧
    directionAzimuthTable "north" = some 0 ∧
    directionToAzimuth "north" = 180 := by
  refine ⟨?_, ?_, by decide, by decide⟩
  · intro d
    unfold directionToAzimuth directionAzimuthTable
    split_ifs <;> decide
  · intro d
    unfold directionToAzimuth directionAzimuthTable
    split_ifs <;> decide

lemma shadowOffset_zero (az e : ℝ) : shadowOffset 0 az e = (0, 0) := by
  unfold shadowOffset shadowLength
  simp

lemma translate_zero (s : Set (ℝ × ℝ)) : translate (0, 0) s = s := by
  unfold translate
  simp

lemma shadowRegion_unit :
    shadowRegion ⟨Icc (0:ℝ) 1 ×ˢ Icc (0:ℝ) 1, 0⟩ 180 45 = Icc (0:ℝ) 1 ×ˢ Icc (0:ℝ) 1 := by
  show translate (shadowOffset 0 180 45) (Icc (0:ℝ) 1 ×ˢ Icc (0:ℝ) 1) = _
  rw [shadowOffset_zero, translate_zero]

/-- C2: for every obstruction, roof plane and sun position above the
near-horizon clamp, the shaded fraction is computed by exactly these
steps: shadow length is height over tangent of elevation, shadow direction
is azimuth plus 180 mod 360, every point of the footprint is translated by
(length sin direction, length cos direction), and the result is the area
of the intersection of the shadow polygon with the roof polygon divided by
the roof-plane area; for every elevation at or below 0 the function
returns 1. -/
theorem shadedFraction_spec (roof : Set (ℝ × ℝ)) (ob : Obstruction) (az e : ℝ) :
    (e ≤ 0 → shadedFraction roof ob az e = 1) ∧
    (clampEpsilon < e →
      shadedFraction roof ob az e =
        area ((fun p : ℝ × ℝ =>
            (p.1 + ob.height / Real.tan (e * Real.pi / 180) *
              Real.sin (degMod360 (az + 180) * Real.pi / 180),
             p.2 + ob.height / Real.tan (e * Real.pi / 180) *
              Real.cos (degMod360 (az + 180) * Real.pi / 180))) '' ob.footprint ∩ roof) /
          area roof) := by
  constructor
  · intro h
    unfold shadedFraction
    rw [if_pos (le_trans h (by norm_num [clampEpsilon]))]
  · intro h
    unfold shadedFraction
    rw [if_neg (not_le.mpr h)]
    unfold shadowRegion translate shadowOffset shadowLength shadowDirection rad
    rfl

/-- Witness for C2: the shaded-fraction contract evaluated on a concrete
unit-square roof and obstruction, at a night elevation and at a daytime
elevation. -/
theorem shadedFraction_spec_witness :
    ((-5 : ℝ) ≤ 0 ∧
      shadedFraction (Icc (0:ℝ) 1 ×ˢ Icc (0:ℝ) 1) ⟨Icc (0:ℝ) 1 ×ˢ Icc (0:ℝ) 1, 0⟩ 180 (-5) = 1) ∧
    (clampEpsilon < 45 ∧
      shadedFraction (Icc (0:ℝ) 1 ×ˢ Icc (0:ℝ) 1) ⟨Icc (0:ℝ) 1 ×ˢ Icc (0:ℝ) 1, 0⟩ 180 45 =
        area ((fun p : ℝ × ℝ =>
            (p.1 + (0 : ℝ) / Real.tan ((45 : ℝ) * Real.pi / 180) *
              Real.sin (degMod360 ((180 : ℝ) + 180) * Real.pi / 180),
             p.2 + (0 : ℝ) / Real.tan ((45 : ℝ) * Real.pi / 180) *
              Real.cos (degMod360 ((180 : ℝ) + 180) * Real.pi / 180))) ''
            (Icc (0:ℝ) 1 ×ˢ Icc (0:ℝ) 1) ∩ (Icc (0:ℝ) 1 ×ˢ Icc (0:ℝ) 1)) /
          area (Icc (0:ℝ) 1 ×ˢ Icc (0:ℝ) 1)) :=
  ⟨⟨by norm_num, (shadedFraction_spec _ _ _ _).1 (by norm_num)⟩,
   ⟨by norm_num [clampEpsilon], (shadedFraction_spec _ _ _ _).2 (by norm_num [clampEpsilon])⟩⟩

/-- C5: the temporal aggregator evaluates exactly the fixed grid of 156
instants, the 15th of each of the 12 months crossed with the 13 local
hours 06:00 through 18:00 inclusive; an instant whose solar elevation is
at or below 0 contributes nothing to either running sum, and every other
instant adds irradiance times efficiency to the potential sum and
irradiance times efficiency times one minus the shaded fraction to the
actual sum. -/
theorem temporalAggregation_spec :
    sampleGrid.length = 156 ∧
    (∀ i : Instant, i ∈ sampleGrid ↔
      1 ≤ i.month ∧ i.month ≤ 12 ∧ i.day = 15 ∧ 6 ≤ i.hour ∧ i.hour ≤ 18) ∧
    (∀ (elev az : Instant → ℝ) (roof : Set (ℝ × ℝ)) (obs : List Obstruction)
        (tilt panelAz tempC : ℝ),
      annualLossPercent elev az roof obs tilt panelAz tempC =
        lossPercent (sampleGrid.foldl (accumStep elev az roof obs tilt panelAz tempC) (0, 0))) ∧
    (∀ (elev az : Instant → ℝ) (roof : Set (ℝ × ℝ)) (obs : List Obstruction)
        (tilt panelAz tempC : ℝ) (acc : ℝ × ℝ) (i : Instant),
      (elev i ≤ 0 → accumStep elev az roof obs tilt panelAz tempC acc i = acc) ∧
      (0 < elev i → accumStep elev az roof obs tilt panelAz tempC acc i =
        (acc.1 + clearSkyIrradiance (elev i) * panelEfficiency (az i) (elev i) tilt panelAz tempC,
         acc.2 + clearSkyIrradiance (elev i) * panelEfficiency (az i) (elev i) tilt panelAz tempC *
           (1 - multiShadedFraction roof obs (az i) (elev i))))) := by
  refine ⟨rfl, ?_, fun _ _ _ _ _ _ _ => rfl, ?_⟩
  · intro i
    unfold sampleGrid
    simp only [List.mem_flatMap, List.mem_map, List.mem_range]
    constructor
    · rintro ⟨m, hm, h, hh, rfl⟩
      exact ⟨show 1 ≤ m + 1 by omega, show m + 1 ≤ 12 by omega, rfl,
        show 6 ≤ h + 6 by omega, show h + 6 ≤ 18 by omega⟩
    · rintro ⟨h1, h2, hd, h3, h4⟩
      obtain ⟨mo, da, ho⟩ := i
      have h1' : 1 ≤ mo := h1
      have h2' : mo ≤ 12 := h2
      have hd' : da = 15 := hd
      have h3' : 6 ≤ ho := h3
      have h4' : ho ≤ 18 := h4
      refine ⟨mo - 1, by omega, ho - 6, by omega, ?_⟩
      have hmo : mo - 1 + 1 = mo := by omega
      have hho : ho - 6 + 6 = ho := by omega
      rw [hmo, hho, hd']
  · intro elev az roof obs tilt panelAz tempC acc i
    constructor
    · intro h
      unfold accumStep
      rw [if_pos h]
    · intro h
      unfold accumStep
      rw [if_neg (not_le.mpr h)]

/-- Witness for C5: the accumulation step evaluated at a concrete night
instant (no contribution) and at a concrete daytime instant (both sums
advance by the stated amounts). -/
theorem temporalAggregation_spec_witness :
    ((-1 : ℝ) ≤ 0 ∧
      accumStep (fun _ => (-1 : ℝ)) (fun _ => 180) (Icc (0:ℝ) 1 ×ˢ Icc (0:ℝ) 1) [] 20 180 25
        (0, 0) ⟨1, 15, 6⟩ = (0, 0)) ∧
    ((0 : ℝ) < 45 ∧
      accumStep (fun _ => (45 : ℝ)) (fun _ => 180) (Icc (0:ℝ) 1 ×ˢ Icc (0:ℝ) 1) [] 20 180 25
        (0, 0) ⟨1, 15, 12⟩ =
        ((0 : ℝ) + clearSkyIrradiance 45 * panelEfficiency 180 45 20 180 25,
         (0 : ℝ) + clearSkyIrradiance 45 * panelEfficiency 180 45 20 180 25 *
           (1 - multiShadedFraction (Icc (0:ℝ) 1 ×ˢ Icc (0:ℝ) 1) [] 180 45))) :=
  ⟨⟨by norm_num,
    (temporalAggregation_spec.2.2.2 (fun _ => (-1 : ℝ)) (fun _ => 180)
      (Icc (0:ℝ) 1 ×ˢ Icc (0:ℝ) 1) [] 20 180 25 (0, 0) ⟨1, 15, 6⟩).1 (by norm_num)⟩,
   ⟨by norm_num,
    (temporalAggregation_spec.2.2.2 (fun _ => (45 : ℝ)) (fun _ => 180)
      (Icc (0:ℝ) 1 ×ˢ Icc (0:ℝ) 1) [] 20 180 25 (0, 0) ⟨1, 15, 12⟩).2 (by norm_num)⟩⟩

/-- C7: for every valid input (roof plane of finite area, any location in
the form of arbitrary per-instant sun positions, any obstruction set), the
produced annual and peak-hours loss percentages both lie between 0 and
100. -/
theorem lossPercent_bounds (elev az : Instant → ℝ) (roof : Set (ℝ × ℝ))
    (obs : List Obstruction) (tilt panelAz tempC : ℝ)
    (hfin : volume roof ≠ ⊤) :
    0 ≤ annualLossPercent elev az roof obs tilt panelAz tempC ∧
      annualLossPercent elev az roof obs tilt panelAz tempC ≤ 100 ∧
      0 ≤ peakLossPercent elev az roof obs tilt panelAz tempC ∧
      peakLossPercent elev az roof obs tilt panelAz tempC ≤ 100 := by
  have h1 := runSums_invariant elev az roof obs tilt panelAz tempC sampleGrid hfin
  have h2 := runSums_invariant elev az roof obs tilt panelAz tempC peakGrid hfin
  exact ⟨lossPercent_nonneg h1.1 h1.2, lossPercent_le_100 h1.1 h1.2,
    lossPercent_nonneg h2.1 h2.2, lossPercent_le_100 h2.1 h2.2⟩

/-- Witness for C7: the loss bounds instantiated on a concrete unit-square
roof plane with no obstructions and a fixed daytime sun. -/
theorem lossPercent_bounds_witness :
    volume (Icc (0:ℝ) 1 ×ˢ Icc (0:ℝ) 1) ≠ ⊤ ∧
      0 ≤ annualLossPercent (fun _ => 45) (fun _ => 180) (Icc (0:ℝ) 1 ×ˢ Icc (0:ℝ) 1)
            [] 20 180 25 ∧
      annualLossPercent (fun _ => 45) (fun _ => 180) (Icc (0:ℝ) 1 ×ˢ Icc (0:ℝ) 1)
            [] 20 180 25 ≤ 100 ∧
      0 ≤ peakLossPercent (fun _ => 45) (fun _ => 180) (Icc (0:ℝ) 1 ×ˢ Icc (0:ℝ) 1)
            [] 20 180 25 ∧
      peakLossPercent (fun _ => 45) (fun _ => 180) (Icc (0:ℝ) 1 ×ˢ Icc (0:ℝ) 1)
            [] 20 180 25 ≤ 100 :=
  ⟨volume_Icc_prod_ne_top 0 1 0 1,
    lossPercent_bounds (fun _ => 45) (fun _ => 180) (Icc (0:ℝ) 1 ×ˢ Icc (0:ℝ) 1) [] 20 180 25
      (volume_Icc_prod_ne_top 0 1 0 1)⟩

lemma biUnion_pair_inter (roof : Set (ℝ × ℝ)) (o1 o2 : Obstruction) (az e : ℝ) :
    (⋃ ob ∈ [o1, o2], shadowRegion ob az e ∩ roof) =
      (shadowRegion o1 az e ∩ roof) ∪ (shadowRegion o2 az e ∩ roof) := by
  ext p
  simp only [Set.mem_iUnion, exists_prop, List.mem_cons, List.not_mem_nil, or_false,
    Set.mem_union]
  constructor
  · rintro ⟨ob, (rfl | rfl), hp⟩
    · exact Or.inl hp
    · exact Or.inr hp
  · rintro (hp | hp)
    · exact ⟨o1, Or.inl rfl, hp⟩
    · exact ⟨o2, Or.inr rfl, hp⟩

/-- C1: for a roof plane with two obstructions, the shaded fraction is the
area of the geometric union of the per-obstruction shadow-roof
intersections divided by the roof-plane area; the union area counts any
overlap between the two shadow intersections exactly once (inclusion and
exclusion), and the shaded fraction is bounded by, not equal to, the sum
of the per-obstruction fractions. -/
theorem multiShadedFraction_union_spec (roof : Set (ℝ × ℝ)) (o1 o2 : Obstruction) (az e : ℝ)
    (he : clampEpsilon < e)
    (hm2 : MeasurableSet (shadowRegion o2 az e ∩ roof))
    (hf1 : volume (shadowRegion o1 az e ∩ roof) ≠ ⊤)
    (hf2 : volume (shadowRegion o2 az e ∩ roof) ≠ ⊤) :
    multiShadedFraction roof [o1, o2] az e =
        area ((shadowRegion o1 az e ∩ roof) ∪ (shadowRegion o2 az e ∩ roof)) / area roof ∧
      area ((shadowRegion o1 az e ∩ roof) ∪ (shadowRegion o2 az e ∩ roof)) =
        area (shadowRegion o1 az e ∩ roof) + area (shadowRegion o2 az e ∩ roof) -
          area ((shadowRegion o1 az e ∩ roof) ∩ (shadowRegion o2 az e ∩ roof)) ∧
      multiShadedFraction roof [o1, o2] az e ≤
        (area (shadowRegion o1 az e ∩ roof) + area (shadowRegion o2 az e ∩ roof)) /
          area roof := by
  have hfu : volume ((shadowRegion o1 az e ∩ roof) ∪ (shadowRegion o2 az e ∩ roof)) ≠ ⊤ :=
    ne_top_of_le_ne_top (ENNReal.add_ne_top.mpr ⟨hf1, hf2⟩)
      (measure_union_le (shadowRegion o1 az e ∩ roof) (shadowRegion o2 az e ∩ roof))
  have hfi : volume ((shadowRegion o1 az e ∩ roof) ∩ (shadowRegion o2 az e ∩ roof)) ≠ ⊤ :=
    ne_top_of_le_ne_top hf1 (measure_mono inter_subset_left)
  have hie : area ((shadowRegion o1 az e ∩ roof) ∪ (shadowRegion o2 az e ∩ roof)) =
      area (shadowRegion o1 az e ∩ roof) + area (shadowRegion o2 az e ∩ roof) -
        area ((shadowRegion o1 az e ∩ roof) ∩ (shadowRegion o2 az e ∩ roof)) := by
    have h := measure_union_add_inter (μ := volume) (shadowRegion o1 az e ∩ roof) hm2
    have h' := congrArg ENNReal.toReal h
    rw [ENNReal.toReal_add hfu hfi, ENNReal.toReal_add hf1 hf2] at h'
    unfold area
    linarith
  have hmsf : multiShadedFraction roof [o1, o2] az e =
      area ((shadowRegion o1 az e ∩ roof) ∪ (shadowRegion o2 az e ∩ roof)) / area roof := by
    unfold multiShadedFraction
    rw [if_neg (not_le.mpr he), biUnion_pair_inter]
  refine ⟨hmsf, hie, ?_⟩
  rw [hmsf]
  have hle : area ((shadowRegion o1 az e ∩ roof) ∪ (shadowRegion o2 az e ∩ roof)) ≤
      area (shadowRegion o1 az e ∩ roof) + area (shadowRegion o2 az e ∩ roof) := by
    have h0 := area_nonneg ((shadowRegion o1 az e ∩ roof) ∩ (shadowRegion o2 az e ∩ roof))
    linarith [hie]
  rcases eq_or_lt_of_le (area_nonneg roof) with hR | hR
  · rw [← hR, div_zero, div_zero]
  · exact (div_le_div_iff_of_pos_right hR).mpr hle

/-- Witness for C1: the union rule instantiated on a concrete unit-square
roof with two identical zero-height obstructions, whose shadow
intersections coincide and hence overlap fully. -/
theorem multiShadedFraction_union_spec_witness :
    clampEpsilon < 45 ∧
    MeasurableSet (shadowRegion ⟨Icc (0:ℝ) 1 ×ˢ Icc (0:ℝ) 1, 0⟩ 180 45 ∩
      (Icc (0:ℝ) 1 ×ˢ Icc (0:ℝ) 1)) ∧
    volume (shadowRegion ⟨Icc (0:ℝ) 1 ×ˢ Icc (0:ℝ) 1, 0⟩ 180 45 ∩
      (Icc (0:ℝ) 1 ×ˢ Icc (0:ℝ) 1)) ≠ ⊤ ∧
    multiShadedFraction (Icc (0:ℝ) 1 ×ˢ Icc (0:ℝ) 1)
        [⟨Icc (0:ℝ) 1 ×ˢ Icc (0:ℝ) 1, 0⟩, ⟨Icc (0:ℝ) 1 ×ˢ Icc (0:ℝ) 1, 0⟩] 180 45 =
      area ((shadowRegion ⟨Icc (0:ℝ) 1 ×ˢ Icc (0:ℝ) 1, 0⟩ 180 45 ∩
          (Icc (0:ℝ) 1 ×ˢ Icc (0:ℝ) 1)) ∪
        (shadowRegion ⟨Icc (0:ℝ) 1 ×ˢ Icc (0:ℝ) 1, 0⟩ 180 45 ∩
          (Icc (0:ℝ) 1 ×ˢ Icc (0:ℝ) 1))) / area (Icc (0:ℝ) 1 ×ˢ Icc (0:ℝ) 1) := by
  have hm : MeasurableSet (shadowRegion ⟨Icc (0:ℝ) 1 ×ˢ Icc (0:ℝ) 1, 0⟩ 180 45 ∩
      (Icc (0:ℝ) 1 ×ˢ Icc (0:ℝ) 1)) := by
    rw [shadowRegion_unit, Set.inter_self]
    exact (measurableSet_Icc.prod measurableSet_Icc)
  have hf : volume (shadowRegion ⟨Icc (0:ℝ) 1 ×ˢ Icc (0:ℝ) 1, 0⟩ 180 45 ∩
      (Icc (0:ℝ) 1 ×ˢ Icc (0:ℝ) 1)) ≠ ⊤ := by
    rw [shadowRegion_unit, Set.inter_self]
    exact volume_Icc_prod_ne_top 0 1 0 1
  exact ⟨by norm_num [clampEpsilon], hm, hf,
    (multiShadedFraction_union_spec (Icc (0:ℝ) 1 ×ˢ Icc (0:ℝ) 1)
      ⟨Icc (0:ℝ) 1 ×ˢ Icc (0:ℝ) 1, 0⟩ ⟨Icc (0:ℝ) 1 ×ˢ Icc (0:ℝ) 1, 0⟩ 180 45
      (by norm_num [clampEpsilon]) hm hf hf).1⟩

/-! Helper lemmas for the shadow-monotonicity counterexample: trigonometric
bounds locating the low-elevation sample strictly between the clamp
threshold and 45 degrees, and the two concrete shaded fractions. -/

lemma tan_pi_div_ninety_lt : Real.tan (Real.pi / 90) < 1 / 4 := by
  have hpi := Real.pi_pos
  have hle4 := Real.pi_le_four
  have hx0 : (0 : ℝ) ≤ Real.pi / 90 := by positivity
  have hsin : Real.sin (Real.pi / 90) ≤ Real.pi / 90 := Real.sin_le hx0
  have hcos : (1 / 2 : ℝ) ≤ Real.cos (Real.pi / 90) := by
    have h := Real.cos_le_cos_of_nonneg_of_le_pi (x := Real.pi / 90) (y := Real.pi / 3)
      hx0 (by linarith) (by linarith)
    rwa [Real.cos_pi_div_three] at h
  have hcospos : 0 < Real.cos (Real.pi / 90) := by linarith
  rw [Real.tan_eq_sin_div_cos, div_lt_iff₀ hcospos]
  nlinarith

lemma two_lt_arctan_deg : (2 : ℝ) < Real.arctan (1 / 4) * 180 / Real.pi := by
  have hpi := Real.pi_pos
  have h1 : Real.pi / 90 < Real.arctan (1 / 4) := by
    have h2 := Real.arctan_strictMono tan_pi_div_ninety_lt
    rwa [Real.arctan_tan (by linarith) (by linarith)] at h2
  rw [lt_div_iff₀ hpi]
  linarith

lemma arctan_deg_lt_45 : Real.arctan (1 / 4) * 180 / Real.pi < 45 := by
  have hpi := Real.pi_pos
  have h1 : Real.arctan (1 / 4) < Real.pi / 4 := by
    have h2 := Real.arctan_strictMono (show (1 / 4 : ℝ) < 1 by norm_num)
    rwa [Real.arctan_one] at h2
  rw [div_lt_iff₀ hpi]
  linarith

lemma rad_arctan_deg (x : ℝ) : rad (Real.arctan x * 180 / Real.pi) = Real.arctan x := by
  unfold rad
  field_simp

lemma shadowLength_arctan_deg (h x : ℝ) :
    shadowLength h (Real.arctan x * 180 / Real.pi) = h / x := by
  unfold shadowLength
  rw [rad_arctan_deg, Real.tan_arctan]

lemma cex_sf_high :
    shadedFraction (Icc (0:ℝ) 1 ×ˢ Icc (0:ℝ) 1) ⟨Icc (0:ℝ) 1 ×ˢ Icc (0:ℝ) 1, 1 / 2⟩ 180 45 =
      1 / 2 := by
  unfold shadedFraction
  rw [if_neg (by norm_num [clampEpsilon])]
  have hreg : shadowRegion ⟨Icc (0:ℝ) 1 ×ˢ Icc (0:ℝ) 1, 1 / 2⟩ 180 45 =
      Icc (0:ℝ) 1 ×ˢ Icc (1 / 2 : ℝ) (3 / 2) := by
    show translate (shadowOffset (1 / 2) 180 45) (Icc (0:ℝ) 1 ×ˢ Icc (0:ℝ) 1) = _
    rw [shadowOffset_south, shadowLength_45, translate_Icc_prod]
    norm_num
  rw [hreg, Set.prod_inter_prod, Set.Icc_inter_Icc, Set.Icc_inter_Icc]
  have h1 : ((0:ℝ) ⊔ 0) = 0 := by norm_num
  have h2 : ((1:ℝ) ⊓ 1) = 1 := by norm_num
  have h3 : ((1 / 2 : ℝ) ⊔ 0) = 1 / 2 := by norm_num
  have h4 : ((3 / 2 : ℝ) ⊓ 1) = 1 := by norm_num
  rw [h1, h2, h3, h4, area_Icc_prod 0 1 (1 / 2) 1 (by norm_num) (by norm_num),
    area_Icc_prod 0 1 0 1 (by norm_num) (by norm_num)]
  norm_num

lemma cex_sf_low :
    shadedFraction (Icc (0:ℝ) 1 ×ˢ Icc (0:ℝ) 1) ⟨Icc (0:ℝ) 1 ×ˢ Icc (0:ℝ) 1, 1 / 2⟩ 180
      (Real.arctan (1 / 4) * 180 / Real.pi) = 0 := by
  unfold shadedFraction
  rw [if_neg (by simpa [clampEpsilon] using not_le.mpr two_lt_arctan_deg)]
  have hreg : shadowRegion ⟨Icc (0:ℝ) 1 ×ˢ Icc (0:ℝ) 1, 1 / 2⟩ 180
      (Real.arctan (1 / 4) * 180 / Real.pi) = Icc (0:ℝ) 1 ×ˢ Icc (2:ℝ) 3 := by
    show translate (shadowOffset (1 / 2) 180 (Real.arctan (1 / 4) * 180 / Real.pi))
      (Icc (0:ℝ) 1 ×ˢ Icc (0:ℝ) 1) = _
    rw [shadowOffset_south, shadowLength_arctan_deg, translate_Icc_prod]
    norm_num
  rw [hreg, Set.prod_inter_prod, Set.Icc_inter_Icc, Set.Icc_inter_Icc]
  have h1 : ((0:ℝ) ⊔ 0) = 0 := by norm_num
  have h2 : ((1:ℝ) ⊓ 1) = 1 := by norm_num
  have h3 : ((2:ℝ) ⊔ 0) = 2 := by norm_num
  have h4 : ((3:ℝ) ⊓ 1) = 1 := by norm_num
  rw [h1, h2, h3, h4]
  have hzero : area (Icc (0:ℝ) 1 ×ˢ Icc (2:ℝ) 1) = 0 := by
    unfold area
    rw [volume_Icc_prod, show ((1:ℝ) - 2) = -1 by norm_num,
      ENNReal.ofReal_of_nonpos (show (-1:ℝ) ≤ 0 by norm_num), mul_zero]
    simp
  rw [hzero, zero_div]

/-- C8 counterexample: shaded fraction is not monotonically non-increasing
in solar elevation.  On a unit-square roof whose obstruction footprint
covers the whole roof (height one half, sun from the south), the shaded
fraction at elevation 45 degrees is one half, but at the lower elevation
arctan(1/4) in degrees (about 14 degrees, strictly between the clamp
threshold and 45) the translated shadow lies entirely past the far edge of
the roof and the shaded fraction drops to 0. -/
theorem shadedFraction_not_monotone :
    clampEpsilon < Real.arctan (1 / 4) * 180 / Real.pi ∧
    Real.arctan (1 / 4) * 180 / Real.pi < 45 ∧
    shadedFraction (Icc (0:ℝ) 1 ×ˢ Icc (0:ℝ) 1) ⟨Icc (0:ℝ) 1 ×ˢ Icc (0:ℝ) 1, 1 / 2⟩ 180
        (Real.arctan (1 / 4) * 180 / Real.pi) <
      shadedFraction (Icc (0:ℝ) 1 ×ˢ Icc (0:ℝ) 1) ⟨Icc (0:ℝ) 1 ×ˢ Icc (0:ℝ) 1, 1 / 2⟩ 180 45 := by
  refine ⟨by simpa [clampEpsilon] using two_lt_arctan_deg, arctan_deg_lt_45, ?_⟩
  rw [cex_sf_low, cex_sf_high]
  norm_num

/-- C8 amended: for a fixed obstruction height, decreasing the solar
elevation (holding it above the near-horizon clamp and below 90 degrees)
does not decrease the shadow length; the shaded fraction itself is not
monotone, because the shadow polygon is a pure translation of the
footprint and can translate past the far edge of the roof. -/
theorem shadowLength_antitone (h e1 e2 : ℝ) (hh : 0 ≤ h) (hclamp : clampEpsilon < e2)
    (h21 : e2 < e1) (h90 : e1 < 90) :
    shadowLength h e1 ≤ shadowLength h e2 := by
  have hpi := Real.pi_pos
  have he2pos : (0 : ℝ) < e2 := by
    have : (2 : ℝ) < e2 := hclamp
    linarith
  have hr2pos : 0 < rad e2 := by
    unfold rad
    positivity
  have hr12 : rad e2 < rad e1 := by
    unfold rad
    have : e2 * Real.pi < e1 * Real.pi := by nlinarith
    linarith
  have hr1lt : rad e1 < Real.pi / 2 := by
    unfold rad
    nlinarith
  have ht2pos : 0 < Real.tan (rad e2) :=
    Real.tan_pos_of_pos_of_lt_pi_div_two hr2pos (lt_trans hr12 hr1lt)
  have htlt : Real.tan (rad e2) < Real.tan (rad e1) :=
    Real.tan_lt_tan_of_nonneg_of_lt_pi_div_two hr2pos.le hr1lt hr12
  unfold shadowLength
  exact div_le_div_of_nonneg_left hh ht2pos htlt.le

/-- Witness for the amended C8: concrete elevations 60 and 30 degrees with
a unit obstruction height. -/
theorem shadowLength_antitone_witness :
    (0 : ℝ) ≤ 1 ∧ clampEpsilon < 30 ∧ (30 : ℝ) < 60 ∧ (60 : ℝ) < 90 ∧
      shadowLength 1 60 ≤ shadowLength 1 30 :=
  ⟨by norm_num, by norm_num [clampEpsilon], by norm_num, by norm_num,
    shadowLength_antitone 1 60 30 (by norm_num) (by norm_num [clampEpsilon]) (by norm_num)
      (by norm_num)⟩

end SiteSurvey
